import Mathlib

/-!
Shallow embedding of the two CLI wrappers of `pianoscorefromyoutube`:
`src/main/demucs_runner.py` (the neural wrapper) and
`src/main/spleeter_runner.py` (the spectrogram wrapper).

Modelling choices:
* The filesystem is a pair of lists: paths that exist as regular files and
  directories that exist (stored in normalized, slash-joined form).
* `sys.executable` is an arbitrary string parameter `pyexe`.
* The child-process facility (`subprocess.run` / `subprocess.call`) is an
  oracle `exec : List String → ExecResult`: either the child was started and
  exited with some code, or process creation itself failed (the Python-level
  `OSError`/`FileNotFoundError` situation), carrying the exception message.
* Every wrapper run is summarised by a `RunOut` record: process exit code,
  the lines written by the process to standard out and to standard error (in
  order), the list of argument vectors handed to the process-spawning
  facility, and the resulting filesystem.
* `argparse` is modelled for the surface the two scripts declare: the flags
  `--input` (required), `--output` (required) and one optional selector flag
  with a default, each taking exactly one value, where a token beginning
  with `-` is not consumed as a value and an unrecognized token is a usage
  error. On a usage error argparse prints a usage message to standard error
  and exits the process with status 2. The auto-generated `--help` flag is
  not modelled. The exact wording of the usage text is abstracted to one
  line per wrapper.
* `traceback.print_exc()` and the interpreter's default handler for an
  uncaught exception are both abstracted to the two lines of
  `tracebackLines`.
-/

namespace PianoScore

/-- Result of parsing the command line of either wrapper:
`--input` value, `--output` value and the selector (`--model` / `--preset`)
value after the default has been applied. -/
structure Args where
  input : String
  output : String
  selector : String
  deriving DecidableEq, Repr

/-- Intermediate state while scanning the token list: which of the three
flags have been assigned so far. -/
structure ArgState where
  input : Option String
  output : Option String
  selector : Option String
  deriving DecidableEq, Repr

/-- Test whether a token begins with `-`, in which case argparse refuses to
consume it as the value of a flag. -/
def looksLikeFlag (s : String) : Bool :=
  match s.data with
  | [] => false
  | c :: _ => c == '-'

/-- Scan the command-line tokens left to right. A recognized flag consumes
the next token as its value unless that token starts with `-` (argparse
then reports "expected one argument"); an unrecognized token is a usage
error. A later occurrence of a flag overwrites an earlier one, as in
argparse. -/
def scanArgs (selFlag : String) : List String → ArgState → Option ArgState
  | [], st => some st
  | tok :: rest, st =>
    if tok = "--input" then
      match rest with
      | [] => none
      | v :: rest2 =>
        if looksLikeFlag v then none
        else scanArgs selFlag rest2 { st with input := some v }
    else if tok = "--output" then
      match rest with
      | [] => none
      | v :: rest2 =>
        if looksLikeFlag v then none
        else scanArgs selFlag rest2 { st with output := some v }
    else if tok = selFlag then
      match rest with
      | [] => none
      | v :: rest2 =>
        if looksLikeFlag v then none
        else scanArgs selFlag rest2 { st with selector := some v }
    else none
  termination_by structural argv => argv

/-- Parse a full command line: scan the tokens, then require the two
mandatory flags and apply the selector default. `none` is the argparse
usage-error outcome (message to standard error, process exit status 2). -/
def runParse (selFlag dfltSel : String) (argv : List String) : Option Args :=
  match scanArgs selFlag argv ⟨none, none, none⟩ with
  | none => none
  | some st =>
    match st.input, st.output with
    | some i, some o => some ⟨i, o, (st.selector.getD dfltSel)⟩
    | _, _ => none

/-- Filesystem model: the set of paths that exist as regular files, and the
set of existing directories, the latter stored in normalized form. -/
structure FS where
  files : List String
  dirs : List String
  deriving DecidableEq, Repr

/-- Test for `os.path.isfile`. -/
def FS.isFile (fs : FS) (p : String) : Prop := p ∈ fs.files

instance (fs : FS) (p : String) : Decidable (fs.isFile p) :=
  inferInstanceAs (Decidable (p ∈ fs.files))

/-- Split a character list on `/`, mirroring `str.split("/")`. -/
def splitSlash : List Char → List (List Char)
  | [] => [[]]
  | c :: rest =>
    let r := splitSlash rest
    if c == '/' then [] :: r
    else
      match r with
      | [] => [[c]]
      | seg :: segs => (c :: seg) :: segs

/-- Nonempty `/`-separated segments of a path string. -/
def pathSegs (p : String) : List String :=
  ((splitSlash p.data).filter (fun l => !l.isEmpty)).map (fun l => ⟨l⟩)

/-- Nonempty leading sublists of a list of segments. -/
def segPrefixes : List String → List (List String)
  | [] => []
  | s :: rest => [s] :: (segPrefixes rest).map (fun l => s :: l)

/-- Normalized form of a path: its nonempty segments joined with `/`. -/
def normPath (p : String) : String :=
  String.intercalate "/" (pathSegs p)

/-- Every directory `os.makedirs p` guarantees to exist afterwards: the
normalized path itself together with all of its ancestors. -/
def ancestorDirs (p : String) : List String :=
  (segPrefixes (pathSegs p)).map (String.intercalate "/")

/-- Append an element to a list unless it is already present. -/
def insertNew (l : List String) (x : String) : List String :=
  if x ∈ l then l else l ++ [x]

/-- Insert each element of `xs` into `l`, skipping duplicates. -/
def insertAll (l : List String) (xs : List String) : List String :=
  xs.foldl insertNew l

/-- Effect of `os.makedirs(p, exist_ok=True)` on the filesystem: the
directory and all of its missing ancestors come into existence; existing
ones are left alone. -/
def FS.makedirs (fs : FS) (p : String) : FS :=
  { fs with dirs := insertAll fs.dirs (ancestorDirs p) }

/-- Test for directory existence (up to path normalization). -/
def FS.hasDir (fs : FS) (p : String) : Prop := normPath p ∈ fs.dirs

instance (fs : FS) (p : String) : Decidable (fs.hasDir p) :=
  inferInstanceAs (Decidable (normPath p ∈ fs.dirs))

/-- Outcome of handing an argument vector to the process-spawning facility:
either a child process was started and terminated with an exit code, or
process creation itself failed with an exception carrying a message. -/
inductive ExecResult
  | spawned (code : Int)
  | spawnFailure (msg : String)
  deriving DecidableEq, Repr

/-- Observable result of one wrapper process run. -/
structure RunOut where
  exitCode : Int
  stdoutLines : List String
  stderrLines : List String
  invocations : List (List String)
  fs : FS
  deriving DecidableEq, Repr

/-- Stand-in for a Python traceback printed to standard error. -/
def tracebackLines (msg : String) : List String :=
  ["Traceback (most recent call last):", msg]

/-- Usage line argparse prints for the neural wrapper. -/
def demucsUsage : String :=
  "usage: demucs_runner.py [-h] --input INPUT --output OUTPUT [--model MODEL]"

/-- Usage line argparse prints for the spectrogram wrapper. -/
def spleeterUsage : String :=
  "usage: spleeter_runner.py [-h] --input INPUT --output OUTPUT [--preset PRESET]"

/-- Command vector the neural wrapper builds:
`[sys.executable, "-m", "demucs", "-n", model, "-o", output, input]`. -/
def demucsCmd (pyexe selector output input : String) : List String :=
  [pyexe, "-m", "demucs", "-n", selector, "-o", output, input]

/-- Command vector the spectrogram wrapper builds:
`[sys.executable, "-m", "spleeter", "separate", "-p", preset, "-i", input,
"-o", output]`. -/
def spleeterCmd (pyexe selector input output : String) : List String :=
  [pyexe, "-m", "spleeter", "separate", "-p", selector, "-i", input, "-o", output]

/-- Process-level model of `demucs_runner.main` (plus the
`raise SystemExit(main())` entry point): parse the flags, echo them to
standard error, check the input file exists, create the output directory,
build the command vector, run it and report. Every exception the script can
meet is handled inside it (`argparse` exits with status 2 itself, and the
`subprocess.run` call is wrapped in `try/except` returning 1), so the model
is a total function into `RunOut`. -/
def demucsRun (fs : FS) (exec : List String → ExecResult) (pyexe : String)
    (argv : List String) : RunOut :=
  match runParse "--model" "htdemucs" argv with
  | none =>
    { exitCode := 2, stdoutLines := [], stderrLines := [demucsUsage],
      invocations := [], fs := fs }
  | some args =>
    let dbg := ["Input file: " ++ args.input,
                "Output directory: " ++ args.output,
                "Model: " ++ args.selector]
    if fs.isFile args.input then
      let fs2 := fs.makedirs args.output
      let cmd := demucsCmd pyexe args.selector args.output args.input
      let pre := dbg ++ ["Running command: " ++ String.intercalate " " cmd]
      match exec cmd with
      | .spawned n =>
        { exitCode := n, stdoutLines := [],
          stderrLines := pre ++ ["Demucs exit code: " ++ toString n],
          invocations := [cmd], fs := fs2 }
      | .spawnFailure msg =>
        { exitCode := 1, stdoutLines := [],
          stderrLines := pre ++ (["Error running Demucs: " ++ msg] ++ tracebackLines msg),
          invocations := [cmd], fs := fs2 }
    else
      { exitCode := 1, stdoutLines := [],
        stderrLines := dbg ++ ["Error: Input file not found: " ++ args.input],
        invocations := [], fs := fs }

/-- Result of `spleeter_runner.main` together with whether an exception
escaped it. `raised = some msg` means `subprocess.call` raised (process
creation failed) and `main` did not catch it: the exception propagated to
the interpreter. `out` is the process-level observable outcome in either
case: for the raised case the interpreter's default handler prints the
traceback to standard error and exits the process with status 1. -/
structure SpleeterOut where
  raised : Option String
  out : RunOut
  deriving DecidableEq, Repr

/-- Model of `spleeter_runner.main` (plus the entry point and the
interpreter's handling of an uncaught exception): parse the flags, build
the command vector and run it, with no filesystem access at all and no
`try/except` around the call. -/
def spleeterMain (fs : FS) (exec : List String → ExecResult) (pyexe : String)
    (argv : List String) : SpleeterOut :=
  match runParse "--preset" "spleeter:2stems" argv with
  | none =>
    { raised := none,
      out := { exitCode := 2, stdoutLines := [], stderrLines := [spleeterUsage],
               invocations := [], fs := fs } }
  | some args =>
    let cmd := spleeterCmd pyexe args.selector args.input args.output
    match exec cmd with
    | .spawned n =>
      { raised := none,
        out := { exitCode := n, stdoutLines := [], stderrLines := [],
                 invocations := [cmd], fs := fs } }
    | .spawnFailure msg =>
      { raised := some msg,
        out := { exitCode := 1, stdoutLines := [], stderrLines := tracebackLines msg,
                 invocations := [cmd], fs := fs } }

/-- Process-level observable outcome of one spectrogram-wrapper run. -/
def spleeterRun (fs : FS) (exec : List String → ExecResult) (pyexe : String)
    (argv : List String) : RunOut :=
  (spleeterMain fs exec pyexe argv).out
/-! Helper lemmas about the argument scanner. -/

/-- When `--input` never occurs among the tokens, scanning cannot assign
the input field. -/
theorem scanArgs_input_not_mem (selFlag : String) (argv : List String) (st : ArgState) :
    "--input" ∉ argv → ∀ st', scanArgs selFlag argv st = some st' → st'.input = st.input := by
  induction argv, st using scanArgs.induct selFlag <;>
    intro hmem st' h <;>
    (rw [scanArgs.eq_def] at h; simp_all)

/-- When `--output` never occurs among the tokens, scanning cannot assign
the output field. -/
theorem scanArgs_output_not_mem (selFlag : String) (argv : List String) (st : ArgState) :
    "--output" ∉ argv → ∀ st', scanArgs selFlag argv st = some st' → st'.output = st.output := by
  induction argv, st using scanArgs.induct selFlag <;>
    intro hmem st' h <;>
    (rw [scanArgs.eq_def] at h; simp_all)

/-- A command line without `--input` is a usage error. -/
theorem runParse_none_input (selFlag dfltSel : String) (argv : List String)
    (h : "--input" ∉ argv) : runParse selFlag dfltSel argv = none := by
  unfold runParse
  cases hs : scanArgs selFlag argv ⟨none, none, none⟩ with
  | none => rfl
  | some st =>
    have hi : st.input = none := scanArgs_input_not_mem selFlag argv _ h st hs
    cases ho : st.output <;> simp [hi, ho]

/-- A command line without `--output` is a usage error. -/
theorem runParse_none_output (selFlag dfltSel : String) (argv : List String)
    (h : "--output" ∉ argv) : runParse selFlag dfltSel argv = none := by
  unfold runParse
  cases hs : scanArgs selFlag argv ⟨none, none, none⟩ with
  | none => rfl
  | some st =>
    have ho : st.output = none := scanArgs_output_not_mem selFlag argv _ h st hs
    cases hi : st.input <;> simp [hi, ho]

/-- Parsing `--input i --output o` succeeds and takes the default selector,
provided neither value looks like a flag. -/
theorem runParse_two_flags (selFlag dfltSel : String) (i o : String)
    (hi : looksLikeFlag i = false) (ho : looksLikeFlag o = false) :
    runParse selFlag dfltSel ["--input", i, "--output", o] = some ⟨i, o, dfltSel⟩ := by
  unfold runParse
  simp [scanArgs, hi, ho]

/-- Parsing `--input i --output o <selFlag> s` succeeds with selector `s`. -/
theorem runParse_three_flags (selFlag dfltSel : String) (i o s : String)
    (hsel1 : selFlag ≠ "--input") (hsel2 : selFlag ≠ "--output")
    (hi : looksLikeFlag i = false) (ho : looksLikeFlag o = false)
    (hs : looksLikeFlag s = false) :
    runParse selFlag dfltSel ["--input", i, "--output", o, selFlag, s] = some ⟨i, o, s⟩ := by
  unfold runParse
  simp [scanArgs, hi, ho, hs, hsel1, hsel2]

/-! Helper lemmas about directory creation. -/

/-- An element is a member of the list after being inserted. -/
theorem mem_insertNew_self (l : List String) (x : String) : x ∈ insertNew l x := by
  unfold insertNew
  split
  · assumption
  · simp

/-- Insertion preserves membership. -/
theorem mem_insertNew_of_mem (l : List String) (x y : String) (h : x ∈ l) :
    x ∈ insertNew l y := by
  unfold insertNew
  split
  · exact h
  · simp [h]

/-- Inserting an element already present leaves the list unchanged. -/
theorem insertNew_of_mem (l : List String) (x : String) (h : x ∈ l) :
    insertNew l x = l := by
  unfold insertNew
  simp [h]

/-- `insertAll` preserves membership in the base list. -/
theorem mem_insertAll_of_mem_left (l xs : List String) (x : String) (h : x ∈ l) :
    x ∈ insertAll l xs := by
  induction xs generalizing l with
  | nil => exact h
  | cons y ys ih => exact ih (insertNew l y) (mem_insertNew_of_mem l x y h)

/-- Every inserted element is a member of the result of `insertAll`. -/
theorem mem_insertAll_of_mem (l xs : List String) (x : String) (h : x ∈ xs) :
    x ∈ insertAll l xs := by
  induction xs generalizing l with
  | nil => cases h
  | cons y ys ih =>
    rcases List.mem_cons.mp h with rfl | hmem
    · exact mem_insertAll_of_mem_left (insertNew l x) ys x (mem_insertNew_self l x)
    · exact ih (insertNew l y) hmem

/-- Inserting elements that are all already present is the identity. -/
theorem insertAll_of_forall_mem (l xs : List String) (h : ∀ x ∈ xs, x ∈ l) :
    insertAll l xs = l := by
  induction xs generalizing l with
  | nil => rfl
  | cons y ys ih =>
    have hy : y ∈ l := h y (by simp)
    show insertAll (insertNew l y) ys = l
    rw [insertNew_of_mem l y hy]
    exact ih l (fun x hx => h x (by simp [hx]))

/-- A nonempty list is one of its own nonempty leading sublists. -/
theorem mem_segPrefixes_self (l : List String) (h : l ≠ []) : l ∈ segPrefixes l := by
  induction l with
  | nil => cases h rfl
  | cons s rest ih =>
    cases rest with
    | nil => simp [segPrefixes]
    | cons t ts =>
      have hmem : t :: ts ∈ segPrefixes (t :: ts) := ih (by simp)
      show s :: t :: ts ∈ [s] :: (segPrefixes (t :: ts)).map (fun l => s :: l)
      exact List.mem_cons_of_mem _ (List.mem_map_of_mem _ hmem)

/-- The normalized path is one of its own ancestors when it has a segment. -/
theorem normPath_mem_ancestorDirs (p : String) (h : pathSegs p ≠ []) :
    normPath p ∈ ancestorDirs p := by
  unfold ancestorDirs normPath
  exact List.mem_map_of_mem _ (mem_segPrefixes_self _ h)

/-- After `makedirs` the directory exists. -/
theorem makedirs_hasDir (fs : FS) (p : String) (h : pathSegs p ≠ []) :
    (fs.makedirs p).hasDir p := by
  unfold FS.makedirs FS.hasDir
  exact mem_insertAll_of_mem _ _ _ (normPath_mem_ancestorDirs p h)

/-- `makedirs` is idempotent, which is the content of `exist_ok=True`:
running it when the directory already exists changes nothing and fails
nothing. -/
theorem makedirs_idem (fs : FS) (p : String) :
    (fs.makedirs p).makedirs p = fs.makedirs p := by
  unfold FS.makedirs
  simp only
  congr 1
  exact insertAll_of_forall_mem _ _ (fun x hx => mem_insertAll_of_mem _ _ _ hx)

/-! Helper lemmas about the two run functions. -/

/-- On the successful-parse, existing-input path the neural wrapper hands
exactly one vector to the spawning facility and its filesystem effect is
`makedirs` on the output path, whatever the child does. -/
theorem demucsRun_invocations_of_file (fs : FS) (exec : List String → ExecResult)
    (pyexe : String) (argv : List String) (args : Args)
    (hp : runParse "--model" "htdemucs" argv = some args)
    (hf : fs.isFile args.input) :
    (demucsRun fs exec pyexe argv).invocations =
      [demucsCmd pyexe args.selector args.output args.input] ∧
    (demucsRun fs exec pyexe argv).fs = fs.makedirs args.output := by
  simp only [demucsRun, hp]
  rw [if_pos hf]
  cases hx : exec (demucsCmd pyexe args.selector args.output args.input) <;> simp [hx]

/-- When the child runs and exits, the neural wrapper returns its code. -/
theorem demucsRun_exit_spawned (fs : FS) (exec : List String → ExecResult)
    (pyexe : String) (argv : List String) (args : Args) (n : Int)
    (hp : runParse "--model" "htdemucs" argv = some args)
    (hf : fs.isFile args.input)
    (hx : exec (demucsCmd pyexe args.selector args.output args.input) = .spawned n) :
    (demucsRun fs exec pyexe argv).exitCode = n := by
  simp only [demucsRun, hp]
  rw [if_pos hf]
  simp [hx]

/-- When process creation fails, the neural wrapper catches, reports and
returns 1. -/
theorem demucsRun_spawn_failure (fs : FS) (exec : List String → ExecResult)
    (pyexe : String) (argv : List String) (args : Args) (msg : String)
    (hp : runParse "--model" "htdemucs" argv = some args)
    (hf : fs.isFile args.input)
    (hx : exec (demucsCmd pyexe args.selector args.output args.input) = .spawnFailure msg) :
    (demucsRun fs exec pyexe argv).exitCode = 1 ∧
    ("Error running Demucs: " ++ msg) ∈ (demucsRun fs exec pyexe argv).stderrLines ∧
    (∀ t ∈ tracebackLines msg, t ∈ (demucsRun fs exec pyexe argv).stderrLines) := by
  simp only [demucsRun, hp]
  rw [if_pos hf]
  simp [hx, tracebackLines]

/-- Full description of the neural wrapper's missing-input run. -/
theorem demucsRun_no_file (fs : FS) (exec : List String → ExecResult)
    (pyexe : String) (argv : List String) (args : Args)
    (hp : runParse "--model" "htdemucs" argv = some args)
    (hf : ¬ fs.isFile args.input) :
    demucsRun fs exec pyexe argv =
      { exitCode := 1, stdoutLines := [],
        stderrLines := ["Input file: " ++ args.input,
                        "Output directory: " ++ args.output,
                        "Model: " ++ args.selector,
                        "Error: Input file not found: " ++ args.input],
        invocations := [], fs := fs } := by
  simp only [demucsRun, hp]
  rw [if_neg hf]
  simp

/-- Full description of the spectrogram wrapper's run when the child was
started and terminated. -/
theorem spleeterMain_spawned (fs : FS) (exec : List String → ExecResult)
    (pyexe : String) (argv : List String) (args : Args) (n : Int)
    (hp : runParse "--preset" "spleeter:2stems" argv = some args)
    (hx : exec (spleeterCmd pyexe args.selector args.input args.output) = .spawned n) :
    spleeterMain fs exec pyexe argv =
      { raised := none,
        out := { exitCode := n, stdoutLines := [], stderrLines := [],
                 invocations := [spleeterCmd pyexe args.selector args.input args.output],
                 fs := fs } } := by
  simp only [spleeterMain, hp]
  simp [hx]

/-- Full description of the spectrogram wrapper's run when process creation
failed: the exception escapes `main`. -/
theorem spleeterMain_spawn_failure (fs : FS) (exec : List String → ExecResult)
    (pyexe : String) (argv : List String) (args : Args) (msg : String)
    (hp : runParse "--preset" "spleeter:2stems" argv = some args)
    (hx : exec (spleeterCmd pyexe args.selector args.input args.output) = .spawnFailure msg) :
    spleeterMain fs exec pyexe argv =
      { raised := some msg,
        out := { exitCode := 1, stdoutLines := [], stderrLines := tracebackLines msg,
                 invocations := [spleeterCmd pyexe args.selector args.input args.output],
                 fs := fs } } := by
  simp only [spleeterMain, hp]
  simp [hx]

/-- On any successful parse, the spectrogram wrapper hands exactly one
vector to the spawning facility and never touches the filesystem. -/
theorem spleeterRun_parts (fs : FS) (exec : List String → ExecResult)
    (pyexe : String) (argv : List String) (args : Args)
    (hp : runParse "--preset" "spleeter:2stems" argv = some args) :
    (spleeterRun fs exec pyexe argv).invocations =
      [spleeterCmd pyexe args.selector args.input args.output] ∧
    (spleeterRun fs exec pyexe argv).fs = fs := by
  unfold spleeterRun
  cases hx : exec (spleeterCmd pyexe args.selector args.input args.output) with
  | spawned n =>
    rw [spleeterMain_spawned fs exec pyexe argv args n hp hx]
    exact ⟨rfl, rfl⟩
  | spawnFailure msg =>
    rw [spleeterMain_spawn_failure fs exec pyexe argv args msg hp hx]
    exact ⟨rfl, rfl⟩

/-- The neural wrapper writes nothing to its own standard output. -/
theorem demucsRun_stdout (fs : FS) (exec : List String → ExecResult)
    (pyexe : String) (argv : List String) :
    (demucsRun fs exec pyexe argv).stdoutLines = [] := by
  unfold demucsRun
  rcases runParse "--model" "htdemucs" argv with _ | args
  · rfl
  · by_cases hf : fs.isFile args.input
    · simp only [if_pos hf]
      rcases exec (demucsCmd pyexe args.selector args.output args.input) with n | msg <;> rfl
    · simp only [if_neg hf]

/-- The spectrogram wrapper writes nothing to its own standard output. -/
theorem spleeterRun_stdout (fs : FS) (exec : List String → ExecResult)
    (pyexe : String) (argv : List String) :
    (spleeterRun fs exec pyexe argv).stdoutLines = [] := by
  unfold spleeterRun spleeterMain
  rcases runParse "--preset" "spleeter:2stems" argv with _ | args
  · rfl
  · simp only
    rcases exec (spleeterCmd pyexe args.selector args.input args.output) with n | msg <;> rfl
/-! Claim theorems. -/

/-- C1: for every filesystem in which the parsed input path exists as a
regular file, every creatable output path and every selector string, the
neural wrapper hands the process-spawning facility exactly the vector
`[runtime, "-m", "demucs", "-n", selector, "-o", output, input]`, in that
order, where `pyexe` stands for `sys.executable`, the interpreter running
the wrapper itself. -/
theorem demucs_command_vector (fs : FS) (exec : List String → ExecResult)
    (pyexe : String) (argv : List String) (args : Args)
    (hp : runParse "--model" "htdemucs" argv = some args)
    (hf : fs.isFile args.input) :
    (demucsRun fs exec pyexe argv).invocations =
      [[pyexe, "-m", "demucs", "-n", args.selector, "-o", args.output, args.input]] :=
  (demucsRun_invocations_of_file fs exec pyexe argv args hp hf).1

/-- Witness for C1 at the spec's own example: `--input song.wav --output
out` with `song.wav` present. -/
theorem demucs_command_vector_witness :
    runParse "--model" "htdemucs" ["--input", "song.wav", "--output", "out"] =
      some ⟨"song.wav", "out", "htdemucs"⟩ ∧
    FS.isFile ⟨["song.wav"], []⟩ "song.wav" ∧
    (demucsRun ⟨["song.wav"], []⟩ (fun _ => ExecResult.spawned 0) "py"
        ["--input", "song.wav", "--output", "out"]).invocations =
      [["py", "-m", "demucs", "-n", "htdemucs", "-o", "out", "song.wav"]] :=
  ⟨by decide, by decide,
    demucs_command_vector ⟨["song.wav"], []⟩ (fun _ => ExecResult.spawned 0) "py"
      ["--input", "song.wav", "--output", "out"] ⟨"song.wav", "out", "htdemucs"⟩
      (by decide) (by decide)⟩

/-- C2: for every input path, output path and preset (the filesystem `fs`
is arbitrary, so in particular the input path need not exist: the wrapper
consults no filesystem predicate, which the third conjunct makes explicit
by letting the filesystem vary), the spectrogram wrapper hands the
process-spawning facility exactly the vector
`[runtime, "-m", "spleeter", "separate", "-p", preset, "-i", input, "-o",
output]`, and leaves the filesystem untouched. -/
theorem spleeter_command_vector (fs fsB : FS) (exec : List String → ExecResult)
    (pyexe : String) (argv : List String) (args : Args)
    (hp : runParse "--preset" "spleeter:2stems" argv = some args) :
    (spleeterRun fs exec pyexe argv).invocations =
      [[pyexe, "-m", "spleeter", "separate", "-p", args.selector, "-i", args.input,
        "-o", args.output]] ∧
    (spleeterRun fs exec pyexe argv).fs = fs ∧
    (spleeterRun fs exec pyexe argv).invocations =
      (spleeterRun fsB exec pyexe argv).invocations := by
  obtain ⟨h1, h2⟩ := spleeterRun_parts fs exec pyexe argv args hp
  obtain ⟨h1B, _⟩ := spleeterRun_parts fsB exec pyexe argv args hp
  exact ⟨h1, h2, h1.trans h1B.symm⟩

/-- Witness for C2 on a filesystem where the input file does not exist. -/
theorem spleeter_command_vector_witness :
    runParse "--preset" "spleeter:2stems" ["--input", "missing.wav", "--output", "out"] =
      some ⟨"missing.wav", "out", "spleeter:2stems"⟩ ∧
    (spleeterRun ⟨[], []⟩ (fun _ => ExecResult.spawned 0) "py"
        ["--input", "missing.wav", "--output", "out"]).invocations =
      [["py", "-m", "spleeter", "separate", "-p", "spleeter:2stems", "-i", "missing.wav",
        "-o", "out"]] :=
  ⟨by decide,
    (spleeter_command_vector ⟨[], []⟩ ⟨["missing.wav"], []⟩ (fun _ => ExecResult.spawned 0)
      "py" ["--input", "missing.wav", "--output", "out"]
      ⟨"missing.wav", "out", "spleeter:2stems"⟩ (by decide)).1⟩

/-- C3: for every parsed input path that does not exist as a regular file,
the neural wrapper returns exit code 1, hands nothing to the
process-spawning facility, and writes a diagnostic identifying the missing
path to standard error. -/
theorem demucs_missing_input_no_spawn (fs : FS) (exec : List String → ExecResult)
    (pyexe : String) (argv : List String) (args : Args)
    (hp : runParse "--model" "htdemucs" argv = some args)
    (hf : ¬ fs.isFile args.input) :
    (demucsRun fs exec pyexe argv).exitCode = 1 ∧
    (demucsRun fs exec pyexe argv).invocations = [] ∧
    ("Error: Input file not found: " ++ args.input) ∈ (demucsRun fs exec pyexe argv).stderrLines := by
  rw [demucsRun_no_file fs exec pyexe argv args hp hf]
  exact ⟨rfl, rfl, by simp⟩

/-- Witness for C3 at the spec's own example `--input missing.wav`. -/
theorem demucs_missing_input_no_spawn_witness :
    runParse "--model" "htdemucs" ["--input", "missing.wav", "--output", "out"] =
      some ⟨"missing.wav", "out", "htdemucs"⟩ ∧
    ¬ FS.isFile ⟨[], []⟩ "missing.wav" ∧
    ((demucsRun ⟨[], []⟩ (fun _ => ExecResult.spawned 0) "py"
        ["--input", "missing.wav", "--output", "out"]).exitCode = 1 ∧
     (demucsRun ⟨[], []⟩ (fun _ => ExecResult.spawned 0) "py"
        ["--input", "missing.wav", "--output", "out"]).invocations = [] ∧
     ("Error: Input file not found: " ++ "missing.wav") ∈
       (demucsRun ⟨[], []⟩ (fun _ => ExecResult.spawned 0) "py"
          ["--input", "missing.wav", "--output", "out"]).stderrLines) :=
  ⟨by decide, by decide,
    demucs_missing_input_no_spawn ⟨[], []⟩ (fun _ => ExecResult.spawned 0) "py"
      ["--input", "missing.wav", "--output", "out"] ⟨"missing.wav", "out", "htdemucs"⟩
      (by decide) (by decide)⟩

/-- C4: whenever the child process is started and terminates with exit code
`n`, the wrapper's own exit code equals `n` unchanged, for both wrappers. -/
theorem child_exit_code_propagated (fs : FS) (exec : List String → ExecResult)
    (pyexe : String) (argvD argvS : List String) (argsD argsS : Args) (n m : Int)
    (hpd : runParse "--model" "htdemucs" argvD = some argsD)
    (hf : fs.isFile argsD.input)
    (hxd : exec (demucsCmd pyexe argsD.selector argsD.output argsD.input) = .spawned n)
    (hps : runParse "--preset" "spleeter:2stems" argvS = some argsS)
    (hxs : exec (spleeterCmd pyexe argsS.selector argsS.input argsS.output) = .spawned m) :
    (demucsRun fs exec pyexe argvD).exitCode = n ∧
    (spleeterRun fs exec pyexe argvS).exitCode = m := by
  refine ⟨demucsRun_exit_spawned fs exec pyexe argvD argsD n hpd hf hxd, ?_⟩
  unfold spleeterRun
  rw [spleeterMain_spawned fs exec pyexe argvS argsS m hps hxs]

/-- Witness for C4 at the spec's example value: child exit code 2 gives
wrapper exit code 2 in both wrappers. -/
theorem child_exit_code_propagated_witness :
    runParse "--model" "htdemucs" ["--input", "a.wav", "--output", "out"] =
      some ⟨"a.wav", "out", "htdemucs"⟩ ∧
    FS.isFile ⟨["a.wav"], []⟩ "a.wav" ∧
    ((demucsRun ⟨["a.wav"], []⟩ (fun _ => ExecResult.spawned 2) "py"
        ["--input", "a.wav", "--output", "out"]).exitCode = 2 ∧
     (spleeterRun ⟨["a.wav"], []⟩ (fun _ => ExecResult.spawned 2) "py"
        ["--input", "a.wav", "--output", "out"]).exitCode = 2) :=
  ⟨by decide, by decide,
    child_exit_code_propagated ⟨["a.wav"], []⟩ (fun _ => ExecResult.spawned 2) "py"
      ["--input", "a.wav", "--output", "out"] ["--input", "a.wav", "--output", "out"]
      ⟨"a.wav", "out", "htdemucs"⟩ ⟨"a.wav", "out", "spleeter:2stems"⟩ 2 2
      (by decide) (by decide) rfl (by decide) rfl⟩

/-- C5 counterexample: the spectrogram wrapper does NOT catch a process
creation failure. At this concrete input the exception escapes `main`
(`raised` is `some`, not `none`), so the claim that in both wrappers "the
invoker catches the failure ... rather than propagating the exception" is
false for the spectrogram wrapper. -/
theorem spleeter_spawn_failure_uncaught :
    (spleeterMain ⟨[], []⟩ (fun _ => ExecResult.spawnFailure "No module named spleeter") "py"
        ["--input", "a", "--output", "b"]).raised = some "No module named spleeter" ∧
    (spleeterMain ⟨[], []⟩ (fun _ => ExecResult.spawnFailure "No module named spleeter") "py"
        ["--input", "a", "--output", "b"]).raised ≠ none := by
  constructor <;> decide

/-- C5 as amended: when process creation fails, the neural wrapper catches
the exception, writes a diagnostic and a full failure trace to standard
error and returns exit code 1; the spectrogram wrapper does not catch it —
the exception propagates out of `main` — but the interpreter's default
handling then prints a traceback to standard error and exits the process
with status 1, so the process-level exit code is 1 in both wrappers. -/
theorem spawn_failure_reporting (fs : FS) (exec : List String → ExecResult)
    (pyexe : String) (argvD argvS : List String) (argsD argsS : Args) (msg : String)
    (hpd : runParse "--model" "htdemucs" argvD = some argsD)
    (hf : fs.isFile argsD.input)
    (hxd : exec (demucsCmd pyexe argsD.selector argsD.output argsD.input) = .spawnFailure msg)
    (hps : runParse "--preset" "spleeter:2stems" argvS = some argsS)
    (hxs : exec (spleeterCmd pyexe argsS.selector argsS.input argsS.output) = .spawnFailure msg) :
    (demucsRun fs exec pyexe argvD).exitCode = 1 ∧
    ("Error running Demucs: " ++ msg) ∈ (demucsRun fs exec pyexe argvD).stderrLines ∧
    (∀ t ∈ tracebackLines msg, t ∈ (demucsRun fs exec pyexe argvD).stderrLines) ∧
    (spleeterMain fs exec pyexe argvS).raised = some msg ∧
    (spleeterRun fs exec pyexe argvS).exitCode = 1 ∧
    (spleeterRun fs exec pyexe argvS).stderrLines = tracebackLines msg := by
  obtain ⟨h1, h2, h3⟩ := demucsRun_spawn_failure fs exec pyexe argvD argsD msg hpd hf hxd
  have hs := spleeterMain_spawn_failure fs exec pyexe argvS argsS msg hps hxs
  refine ⟨h1, h2, h3, ?_, ?_, ?_⟩
  · rw [hs]
  · unfold spleeterRun
    rw [hs]
  · unfold spleeterRun
    rw [hs]

/-- Witness for the amended C5 with a concrete failure message. -/
theorem spawn_failure_reporting_witness :
    runParse "--model" "htdemucs" ["--input", "a.wav", "--output", "out"] =
      some ⟨"a.wav", "out", "htdemucs"⟩ ∧
    FS.isFile ⟨["a.wav"], []⟩ "a.wav" ∧
    ((demucsRun ⟨["a.wav"], []⟩ (fun _ => ExecResult.spawnFailure "boom") "py"
        ["--input", "a.wav", "--output", "out"]).exitCode = 1 ∧
     ("Error running Demucs: " ++ "boom") ∈
       (demucsRun ⟨["a.wav"], []⟩ (fun _ => ExecResult.spawnFailure "boom") "py"
          ["--input", "a.wav", "--output", "out"]).stderrLines ∧
     (∀ t ∈ tracebackLines "boom",
        t ∈ (demucsRun ⟨["a.wav"], []⟩ (fun _ => ExecResult.spawnFailure "boom") "py"
              ["--input", "a.wav", "--output", "out"]).stderrLines) ∧
     (spleeterMain ⟨["a.wav"], []⟩ (fun _ => ExecResult.spawnFailure "boom") "py"
        ["--input", "a.wav", "--output", "out"]).raised = some "boom" ∧
     (spleeterRun ⟨["a.wav"], []⟩ (fun _ => ExecResult.spawnFailure "boom") "py"
        ["--input", "a.wav", "--output", "out"]).exitCode = 1 ∧
     (spleeterRun ⟨["a.wav"], []⟩ (fun _ => ExecResult.spawnFailure "boom") "py"
        ["--input", "a.wav", "--output", "out"]).stderrLines = tracebackLines "boom") :=
  ⟨by decide, by decide,
    spawn_failure_reporting ⟨["a.wav"], []⟩ (fun _ => ExecResult.spawnFailure "boom") "py"
      ["--input", "a.wav", "--output", "out"] ["--input", "a.wav", "--output", "out"]
      ⟨"a.wav", "out", "htdemucs"⟩ ⟨"a.wav", "out", "spleeter:2stems"⟩ "boom"
      (by decide) (by decide) rfl (by decide) rfl⟩

/-- C6: when the input file exists (and the output path has at least one
nonempty segment), the neural wrapper's filesystem effect is exactly
`makedirs` on the output path — performed before the child is invoked and
regardless of the child's outcome — after which the output directory and
all of its ancestors exist; and `makedirs` is idempotent, so the step
cannot fail when the directory already exists. -/
theorem demucs_output_dir_created (fs : FS) (exec : List String → ExecResult)
    (pyexe : String) (argv : List String) (args : Args)
    (hp : runParse "--model" "htdemucs" argv = some args)
    (hf : fs.isFile args.input)
    (hne : pathSegs args.output ≠ []) :
    (demucsRun fs exec pyexe argv).fs = fs.makedirs args.output ∧
    (fs.makedirs args.output).hasDir args.output ∧
    (∀ d ∈ ancestorDirs args.output, d ∈ (fs.makedirs args.output).dirs) ∧
    (fs.makedirs args.output).makedirs args.output = fs.makedirs args.output :=
  ⟨(demucsRun_invocations_of_file fs exec pyexe argv args hp hf).2,
   makedirs_hasDir fs args.output hne,
   fun d hd => mem_insertAll_of_mem fs.dirs (ancestorDirs args.output) d hd,
   makedirs_idem fs args.output⟩

/-- Witness for C6 with a nested output directory on an empty tree. -/
theorem demucs_output_dir_created_witness :
    runParse "--model" "htdemucs" ["--input", "a.wav", "--output", "out/stems"] =
      some ⟨"a.wav", "out/stems", "htdemucs"⟩ ∧
    FS.isFile ⟨["a.wav"], []⟩ "a.wav" ∧
    pathSegs "out/stems" ≠ [] ∧
    ((demucsRun ⟨["a.wav"], []⟩ (fun _ => ExecResult.spawned 0) "py"
        ["--input", "a.wav", "--output", "out/stems"]).fs =
       FS.makedirs ⟨["a.wav"], []⟩ "out/stems" ∧
     (FS.makedirs ⟨["a.wav"], []⟩ "out/stems").hasDir "out/stems" ∧
     (∀ d ∈ ancestorDirs "out/stems", d ∈ (FS.makedirs ⟨["a.wav"], []⟩ "out/stems").dirs) ∧
     (FS.makedirs ⟨["a.wav"], []⟩ "out/stems").makedirs "out/stems" =
       FS.makedirs ⟨["a.wav"], []⟩ "out/stems") :=
  ⟨by decide, by decide, by decide,
    demucs_output_dir_created ⟨["a.wav"], []⟩ (fun _ => ExecResult.spawned 0) "py"
      ["--input", "a.wav", "--output", "out/stems"] ⟨"a.wav", "out/stems", "htdemucs"⟩
      (by decide) (by decide) (by decide)⟩

/-- C7: on any command line of either wrapper from which `--input` or
`--output` is absent, the wrapper terminates with the argparse usage-error
exit status 2 (non-zero) and only the usage message on standard error,
having performed no path validation, no directory creation (the filesystem
is returned unchanged) and no child-process invocation. -/
theorem missing_required_flag_usage (fs : FS) (exec : List String → ExecResult)
    (pyexe : String) (argv : List String)
    (h : "--input" ∉ argv ∨ "--output" ∉ argv) :
    demucsRun fs exec pyexe argv =
      { exitCode := 2, stdoutLines := [], stderrLines := [demucsUsage],
        invocations := [], fs := fs } ∧
    spleeterRun fs exec pyexe argv =
      { exitCode := 2, stdoutLines := [], stderrLines := [spleeterUsage],
        invocations := [], fs := fs } := by
  have hd : runParse "--model" "htdemucs" argv = none := by
    cases h with
    | inl h => exact runParse_none_input _ _ _ h
    | inr h => exact runParse_none_output _ _ _ h
  have hs2 : runParse "--preset" "spleeter:2stems" argv = none := by
    cases h with
    | inl h => exact runParse_none_input _ _ _ h
    | inr h => exact runParse_none_output _ _ _ h
  constructor
  · simp only [demucsRun, hd]
  · unfold spleeterRun
    simp only [spleeterMain, hs2]

/-- Witness for C7: a command line carrying only `--input`. -/
theorem missing_required_flag_usage_witness :
    ("--input" ∉ (["--input", "a.wav"] : List String) ∨
       "--output" ∉ (["--input", "a.wav"] : List String)) ∧
    (demucsRun ⟨["a.wav"], []⟩ (fun _ => ExecResult.spawned 0) "py" ["--input", "a.wav"] =
      { exitCode := 2, stdoutLines := [], stderrLines := [demucsUsage],
        invocations := [], fs := ⟨["a.wav"], []⟩ } ∧
     spleeterRun ⟨["a.wav"], []⟩ (fun _ => ExecResult.spawned 0) "py" ["--input", "a.wav"] =
      { exitCode := 2, stdoutLines := [], stderrLines := [spleeterUsage],
        invocations := [], fs := ⟨["a.wav"], []⟩ }) :=
  ⟨by decide,
    missing_required_flag_usage ⟨["a.wav"], []⟩ (fun _ => ExecResult.spawned 0) "py"
      ["--input", "a.wav"] (by decide)⟩

/-- C8: when the selector flag is omitted, parsing succeeds with selector
`"htdemucs"` for the neural wrapper (flag `--model`) and
`"spleeter:2stems"` for the spectrogram wrapper (flag `--preset`), and the
command vectors carry those defaults. -/
theorem selector_defaults (fs : FS) (exec : List String → ExecResult)
    (pyexe i o : String)
    (hi : looksLikeFlag i = false) (ho : looksLikeFlag o = false)
    (hf : fs.isFile i) :
    runParse "--model" "htdemucs" ["--input", i, "--output", o] = some ⟨i, o, "htdemucs"⟩ ∧
    runParse "--preset" "spleeter:2stems" ["--input", i, "--output", o] =
      some ⟨i, o, "spleeter:2stems"⟩ ∧
    (demucsRun fs exec pyexe ["--input", i, "--output", o]).invocations =
      [[pyexe, "-m", "demucs", "-n", "htdemucs", "-o", o, i]] ∧
    (spleeterRun fs exec pyexe ["--input", i, "--output", o]).invocations =
      [[pyexe, "-m", "spleeter", "separate", "-p", "spleeter:2stems", "-i", i, "-o", o]] := by
  have h1 := runParse_two_flags "--model" "htdemucs" i o hi ho
  have h2 := runParse_two_flags "--preset" "spleeter:2stems" i o hi ho
  exact ⟨h1, h2,
    (demucsRun_invocations_of_file fs exec pyexe _ ⟨i, o, "htdemucs"⟩ h1 hf).1,
    (spleeterRun_parts fs exec pyexe _ ⟨i, o, "spleeter:2stems"⟩ h2).1⟩

/-- Witness for C8 at concrete paths with the selector flag omitted. -/
theorem selector_defaults_witness :
    looksLikeFlag "a.wav" = false ∧ looksLikeFlag "out" = false ∧
    FS.isFile ⟨["a.wav"], []⟩ "a.wav" ∧
    (runParse "--model" "htdemucs" ["--input", "a.wav", "--output", "out"] =
       some ⟨"a.wav", "out", "htdemucs"⟩ ∧
     runParse "--preset" "spleeter:2stems" ["--input", "a.wav", "--output", "out"] =
       some ⟨"a.wav", "out", "spleeter:2stems"⟩ ∧
     (demucsRun ⟨["a.wav"], []⟩ (fun _ => ExecResult.spawned 0) "py"
         ["--input", "a.wav", "--output", "out"]).invocations =
       [["py", "-m", "demucs", "-n", "htdemucs", "-o", "out", "a.wav"]] ∧
     (spleeterRun ⟨["a.wav"], []⟩ (fun _ => ExecResult.spawned 0) "py"
         ["--input", "a.wav", "--output", "out"]).invocations =
       [["py", "-m", "spleeter", "separate", "-p", "spleeter:2stems", "-i", "a.wav",
         "-o", "out"]]) :=
  ⟨by decide, by decide, by decide,
    selector_defaults ⟨["a.wav"], []⟩ (fun _ => ExecResult.spawned 0) "py" "a.wav" "out"
      (by decide) (by decide) (by decide)⟩

/-- C9: on the neural wrapper's precondition-error path (parsed input path
not an existing regular file) the run returns 1, performs no invocation and
leaves the filesystem exactly as it was — in particular the output
directory is not created, because the input check precedes the
directory-creation step. -/
theorem demucs_error_path_preserves_fs (fs : FS) (exec : List String → ExecResult)
    (pyexe : String) (argv : List String) (args : Args)
    (hp : runParse "--model" "htdemucs" argv = some args)
    (hf : ¬ fs.isFile args.input) :
    (demucsRun fs exec pyexe argv).fs = fs ∧
    (demucsRun fs exec pyexe argv).exitCode = 1 ∧
    (demucsRun fs exec pyexe argv).invocations = [] := by
  rw [demucsRun_no_file fs exec pyexe argv args hp hf]
  exact ⟨rfl, rfl, rfl⟩

/-- Witness for C9: a missing input with a not-yet-existing output
directory, which stays absent. -/
theorem demucs_error_path_preserves_fs_witness :
    runParse "--model" "htdemucs" ["--input", "missing.wav", "--output", "newdir"] =
      some ⟨"missing.wav", "newdir", "htdemucs"⟩ ∧
    ¬ FS.isFile ⟨[], []⟩ "missing.wav" ∧
    ((demucsRun ⟨[], []⟩ (fun _ => ExecResult.spawned 0) "py"
        ["--input", "missing.wav", "--output", "newdir"]).fs = ⟨[], []⟩ ∧
     (demucsRun ⟨[], []⟩ (fun _ => ExecResult.spawned 0) "py"
        ["--input", "missing.wav", "--output", "newdir"]).exitCode = 1 ∧
     (demucsRun ⟨[], []⟩ (fun _ => ExecResult.spawned 0) "py"
        ["--input", "missing.wav", "--output", "newdir"]).invocations = []) :=
  ⟨by decide, by decide,
    demucs_error_path_preserves_fs ⟨[], []⟩ (fun _ => ExecResult.spawned 0) "py"
      ["--input", "missing.wav", "--output", "newdir"] ⟨"missing.wav", "newdir", "htdemucs"⟩
      (by decide) (by decide)⟩

/-- C10: neither wrapper ever writes to its own standard output, on any
input, filesystem and child behaviour. Every line either wrapper emits
itself — the debug echo of the arguments, the command line about to run,
the error diagnostics and the child's exit code — is carried by the
`stderrLines` field of the embedding, mirroring the `file=sys.stderr`
argument on every `print` in the source; `stdoutLines` is empty on every
path through both wrappers. -/
theorem wrappers_never_write_stdout (fs : FS) (exec : List String → ExecResult)
    (pyexe : String) (argv : List String) :
    (demucsRun fs exec pyexe argv).stdoutLines = [] ∧
    (spleeterRun fs exec pyexe argv).stdoutLines = [] :=
  ⟨demucsRun_stdout fs exec pyexe argv, spleeterRun_stdout fs exec pyexe argv⟩

end PianoScore
